import Mathlib

/-!
Shallow embedding of the ButtonExecutor library (src/ButtonExecutor.h,
src/ButtonExecutor.cpp): an execution state machine toggled by a push
button, plus a fixed-capacity registry of periodic callbacks that
delegates scheduling to an external Timer collaborator.

Machine integers: pin levels and callback handles are C `int` / `int8_t`
values; every value that actually occurs is tiny (between -2 and 10), far
from any overflow, so they are modelled as `Int`. Function pointers are
modelled as opaque `Nat` identifiers. Each operation returns, next to its
result and the new state, the trace of calls it makes to the external
collaborators (scheduler registrations and cancellations, user hooks,
pin configuration, diagnostic prints), in order.
-/

/-- Modelled from the spec: capacity constant of the external Timer
scheduler collaborator (the spec's `MAX_EVENTS`; `MAX_NUMBER_OF_EVENTS`
in the Timer dependency named by ButtonExecutor.h), bounding total
concurrent registrations. The Timer library sets it to 10. -/
def MAX_NUMBER_OF_EVENTS : Nat := 10

/-- Modelled from the spec: the sentinel empty marker of the external
Timer scheduler (`TIMER_NOT_AN_EVENT` in the Timer dependency), value -2. -/
def TIMER_NOT_AN_EVENT : Int := -2

/-- Modelled from the spec: the Timer scheduler's no-free-event return
value (`NO_TIMER_AVAILABLE` in the Timer dependency), value -1. -/
def NO_TIMER_AVAILABLE : Int := -1

/-- `MAX_NUMBER_OF_CALLBACKS` (ButtonExecutor.cpp line 9): one less than
the scheduler capacity, reserving one scheduler event for the button
poll registration. -/
def MAX_NUMBER_OF_CALLBACKS : Nat := MAX_NUMBER_OF_EVENTS - 1

/-- `CALLBACK_STOPPED` (ButtonExecutor.h line 28). -/
def CALLBACK_STOPPED : Int := 1

/-- `CALLBACK_NOT_INSTALLED` (ButtonExecutor.h line 29): defined as the
empty-slot marker `TIMER_NOT_AN_EVENT`. -/
def CALLBACK_NOT_INSTALLED : Int := TIMER_NOT_AN_EVENT

/-- `BUTTON_INTERVAL_MS` (ButtonExecutor.cpp line 10). -/
def BUTTON_INTERVAL_MS : Nat := 10

/-- Opaque identifier standing for the internal `checkButton` function
pointer that `setup` registers with the scheduler. -/
def checkButtonCb : Nat := 0

/-- Modelled from the spec: the scheduler collaborator's state, a
fixed-size table of events, each either free (`none`) or holding a
registered periodic callback as `(periodMs, callback)`. -/
structure Timer where
  events : List (Option (Nat × Nat))
deriving DecidableEq, Repr

/-- Modelled from the spec: helper for `RegisterPeriodic` — scan for the
first free event slot, store the registration there, and report its
index; `none` when the table is full. -/
def everyAux (periodMs callback : Nat) :
    List (Option (Nat × Nat)) → Option (Nat × List (Option (Nat × Nat)))
  | [] => none
  | none :: es => some (0, some (periodMs, callback) :: es)
  | some e :: es =>
    match everyAux periodMs callback es with
    | none => none
    | some (i, es') => some (i + 1, some e :: es')

/-- Modelled from the spec: the scheduler's
`RegisterPeriodic(periodMs, callback) → handle` operation (the Timer
dependency's `every`): the handle is the index of the event slot used,
or `NO_TIMER_AVAILABLE` when the table is full. -/
def Timer.every (t : Timer) (periodMs callback : Nat) : Int × Timer :=
  match everyAux periodMs callback t.events with
  | none => (NO_TIMER_AVAILABLE, t)
  | some (i, es) => ((i : Int), ⟨es⟩)

/-- Modelled from the spec: the scheduler's `Cancel(handle)` operation
(the Timer dependency's event release): free the event at a valid
handle, and ignore an out-of-range handle. -/
def Timer.stop (t : Timer) (id : Int) : Timer :=
  if 0 ≤ id ∧ id < (t.events.length : Int) then ⟨t.events.set id.toNat none⟩
  else t

/-- One observable call to an external collaborator. `regPeriodic` is a
scheduler registration together with the handle it returned; `cancel` is
a scheduler cancellation; `callSetup`, `callStart` and `callStop` are
invocations of the user hooks; `configInput` is the pin configuration;
`print` is a line handed to `printMsg` (forwarded to the optional
diagnostic sink when one was supplied at construction). -/
inductive Event where
  | regPeriodic (periodMs callback : Nat) (handle : Int)
  | cancel (h : Int)
  | callSetup
  | callStart
  | callStop
  | configInput (pin : Int)
  | print (msg : String)
deriving DecidableEq, Repr

/-- The file-static mutable state of ButtonExecutor.cpp (lines 12-20),
together with the state of the `_timer` collaborator. Only the first
`MAX_NUMBER_OF_CALLBACKS` entries of the `_callbackReferences` array are
ever read or written, so `callbackReferences` holds exactly those. -/
structure ExecState where
  buttonPin : Int
  expectedButtonPressState : Int
  oldButtonState : Int
  isExecuting : Bool
  callbackReferences : List Int
  timer : Timer
deriving DecidableEq, Repr

/-- C logical negation on an integer, as applied to
`expectedButtonPressState` when initializing `_oldButtonState`
(ButtonExecutor.cpp line 44). -/
def cNot (x : Int) : Int := if x = 0 then 1 else 0

/-- `ButtonExecutor::setup` (ButtonExecutor.cpp lines 35-60): store the
configuration, initialize `_oldButtonState` to the logical complement of
the expected press level, clear the first `MAX_NUMBER_OF_CALLBACKS`
callback references, invoke the setup hook once, configure the pin as
input, and register the internal `checkButton` poll with the scheduler
at `BUTTON_INTERVAL_MS`. The scheduler starts as the freshly constructed
file-static `_timer` with every event free. -/
def setup (buttonPin expectedButtonPressState : Int) : ExecState × List Event :=
  let refs := List.replicate MAX_NUMBER_OF_CALLBACKS TIMER_NOT_AN_EVENT
  let t0 : Timer := ⟨List.replicate MAX_NUMBER_OF_EVENTS none⟩
  match Timer.every t0 BUTTON_INTERVAL_MS checkButtonCb with
  | (h, t1) =>
    ({ buttonPin := buttonPin,
       expectedButtonPressState := expectedButtonPressState,
       oldButtonState := cNot expectedButtonPressState,
       isExecuting := false,
       callbackReferences := refs,
       timer := t1 },
     [Event.print "*** Setting up", Event.callSetup,
      Event.configInput buttonPin,
      Event.regPeriodic BUTTON_INTERVAL_MS checkButtonCb h,
      Event.print "*** Ready to start execution"])

/-- The loop of `ButtonExecutor::callbackEveryByMillis` (lines 70-78):
walk the callback references in index order; at the first one equal to
`TIMER_NOT_AN_EVENT`, register the callback with the scheduler, store
the returned handle there and report it; `none` when no reference is
free. -/
def insertRef (t : Timer) (periodInMs callback : Nat) :
    List Int → Option (Int × List Int × Timer)
  | [] => none
  | r :: rs =>
    if r ≠ TIMER_NOT_AN_EVENT then
      match insertRef t periodInMs callback rs with
      | none => none
      | some (h, rs', t') => some (h, r :: rs', t')
    else
      match Timer.every t periodInMs callback with
      | (h, t') => some (h, h :: rs, t')

/-- `ButtonExecutor::callbackEveryByMillis` (ButtonExecutor.cpp lines
66-82): first-fit insertion into the callback reference array, returning
the scheduler handle, or `CALLBACK_NOT_INSTALLED` when every reference
is occupied (in which case nothing is registered). -/
def callbackEveryByMillis (periodInMs callback : Nat) (s : ExecState) :
    Int × ExecState × List Event :=
  match insertRef s.timer periodInMs callback s.callbackReferences with
  | some (h, refs', t') =>
    (h, { s with callbackReferences := refs', timer := t' },
     [Event.regPeriodic periodInMs callback h])
  | none => (CALLBACK_NOT_INSTALLED, s, [])

/-- `ButtonExecutor::callbackEveryByHertz` (ButtonExecutor.cpp lines
84-89): convert the frequency to milliseconds by the C unsigned integer
division `1000 / periodInHz` and delegate to `callbackEveryByMillis`.
The division has no guard in the source; a zero divisor is undefined
behaviour in C, modelled here as `none`. -/
def callbackEveryByHertz (periodInHz callback : Nat) (s : ExecState) :
    Option (Int × ExecState × List Event) :=
  if periodInHz = 0 then none
  else
    let callbackMillis := 1000 / periodInHz
    some (callbackEveryByMillis callbackMillis callback s)

/-- The loop of `ButtonExecutor::stopCallback` (lines 95-104): walk the
callback references in index order; at the first one equal to
`callbackId`, cancel that id with the scheduler and reset the reference
to `TIMER_NOT_AN_EVENT`; `none` when no reference matches. -/
def removeRef (t : Timer) (callbackId : Int) :
    List Int → Option (List Int × Timer)
  | [] => none
  | r :: rs =>
    if r ≠ callbackId then
      match removeRef t callbackId rs with
      | none => none
      | some (rs', t') => some (r :: rs', t')
    else
      some (TIMER_NOT_AN_EVENT :: rs, Timer.stop t callbackId)

/-- `ButtonExecutor::stopCallback` (ButtonExecutor.cpp lines 92-108):
cancel and clear the first callback reference equal to `callbackId`,
returning `CALLBACK_STOPPED`; `CALLBACK_NOT_INSTALLED` when no reference
matches, leaving everything unchanged. -/
def stopCallback (callbackId : Int) (s : ExecState) :
    Int × ExecState × List Event :=
  match removeRef s.timer callbackId s.callbackReferences with
  | some (refs', t') =>
    (CALLBACK_STOPPED, { s with callbackReferences := refs', timer := t' },
     [Event.cancel callbackId])
  | none => (CALLBACK_NOT_INSTALLED, s, [])

/-- The loop of `stopExecution` (ButtonExecutor.cpp lines 165-168): for
every callback reference in index order, cancel it with the scheduler
(the empty marker included — the scheduler ignores it as out of range)
and reset it to `TIMER_NOT_AN_EVENT`. -/
def clearRefs (t : Timer) : List Int → Timer × List Int × List Event
  | [] => (t, [], [])
  | r :: rs =>
    match clearRefs (Timer.stop t r) rs with
    | (t', rs', evs) => (t', TIMER_NOT_AN_EVENT :: rs', Event.cancel r :: evs)

/-- `startExecution` (ButtonExecutor.cpp lines 139-149): a guarded no-op
while already executing; otherwise invoke the start hook and set
`_isExecuting`. -/
def startExecution (s : ExecState) : ExecState × List Event :=
  if s.isExecuting then (s, [])
  else
    ({ s with isExecuting := true },
     [Event.print "*** Starting execution", Event.callStart])

/-- `stopExecution` (ButtonExecutor.cpp lines 156-174): a guarded no-op
while not executing; otherwise cancel and clear every callback
reference, invoke the stop hook, and clear `_isExecuting`. -/
def stopExecution (s : ExecState) : ExecState × List Event :=
  if !s.isExecuting then (s, [])
  else
    match clearRefs s.timer s.callbackReferences with
    | (t', refs', cancelEvs) =>
      ({ s with timer := t', callbackReferences := refs', isExecuting := false },
       Event.print "*** Stopping execution" ::
         (cancelEvs ++ [Event.callStop, Event.print "*** Ready to start execution"]))

/-- `ButtonExecutor::abortExecution` (ButtonExecutor.cpp lines 110-113):
print the abort message, then run the stop transition. -/
def abortExecution (s : ExecState) : ExecState × List Event :=
  match stopExecution s with
  | (s', evs) => (s', Event.print "*** Aborting execution by request!" :: evs)

/-- `checkButton` (ButtonExecutor.cpp lines 121-132), one polling tick:
`currentButtonState` is the level `digitalRead(_buttonPin)` returns on
this tick. A press fires exactly when that level equals the expected
press level and differs from the last observed one, starting execution
when idle and stopping it when executing; the last observed level is
then unconditionally updated. -/
def checkButton (currentButtonState : Int) (s : ExecState) :
    ExecState × List Event :=
  let r :=
    if currentButtonState = s.expectedButtonPressState ∧
        currentButtonState ≠ s.oldButtonState then
      if !s.isExecuting then startExecution s else stopExecution s
    else (s, [])
  ({ r.1 with oldButtonState := currentButtonState }, r.2)

/-- Index of the first empty slot, as the spec describes the insertion
scan: the slots are searched in index order for the first one holding
the empty marker. Stated from the spec's words, to be compared with
`insertRef`. -/
def firstEmpty : List Int → Option Nat
  | [] => none
  | r :: rs =>
    if r = TIMER_NOT_AN_EVENT then some 0 else (firstEmpty rs).map (· + 1)

/-- Index of the first slot storing the given handle, as the spec
describes the removal scan. Stated from the spec's words, to be compared
with `removeRef`. -/
def firstMatch (callbackId : Int) : List Int → Option Nat
  | [] => none
  | r :: rs =>
    if r = callbackId then some 0 else (firstMatch callbackId rs).map (· + 1)

/-- Every slot of a reference list holds the empty marker. -/
def allCleared (rs : List Int) : Prop := ∀ r ∈ rs, r = TIMER_NOT_AN_EVENT

instance (rs : List Int) : Decidable (allCleared rs) :=
  inferInstanceAs (Decidable (∀ r ∈ rs, r = TIMER_NOT_AN_EVENT))

/-- One invocation of a public operation of the interface after setup: a
polling tick of `checkButton` reading the given level, a registration by
period or by frequency, an explicit callback removal, or an abort. -/
inductive Op where
  | tick (level : Int)
  | insertMillis (periodInMs callback : Nat)
  | insertHertz (periodInHz callback : Nat)
  | removeCb (callbackId : Int)
  | abort
deriving DecidableEq, Repr

/-- State reached by one public operation, results and traces dropped.
An `insertHertz` whose conversion is undefined (zero frequency) keeps
the state. -/
def applyOp (op : Op) (s : ExecState) : ExecState :=
  match op with
  | Op.tick level => (checkButton level s).1
  | Op.insertMillis p cb => (callbackEveryByMillis p cb s).2.1
  | Op.insertHertz f cb =>
    match callbackEveryByHertz f cb s with
    | some (_, s', _) => s'
    | none => s
  | Op.removeCb cid => (stopCallback cid s).2.1
  | Op.abort => (abortExecution s).1

/-- State reached by a sequence of public operations, first to last. -/
def applyOps (ops : List Op) (s : ExecState) : ExecState :=
  match ops with
  | [] => s
  | op :: rest => applyOps rest (applyOp op s)

/-- True unless `op` is a registration (`insertMillis` or `insertHertz`)
invoked while `isExecuting` is false. -/
def opGuard (op : Op) (s : ExecState) : Bool :=
  match op with
  | Op.insertMillis _ _ => s.isExecuting
  | Op.insertHertz _ _ => s.isExecuting
  | _ => true

/-- Checks that along the run of `ops` from `s`, every registration
(`insertMillis` or `insertHertz`) happens while `isExecuting` is true. -/
def okSeq (s : ExecState) : List Op → Bool
  | [] => true
  | op :: rest => opGuard op s && okSeq (applyOp op s) rest

/-- Per-tick traces of a sequence of polled levels. -/
def tickTraces (levels : List Int) (s : ExecState) : List (List Event) :=
  match levels with
  | [] => []
  | l :: ls => (checkButton l s).2 :: tickTraces ls (checkButton l s).1

/-- A representative state right after `setup` on pin 2 with expected
press level HIGH. -/
def initExec : ExecState := (setup 2 1).1

/-- Handles returned by `n` consecutive period-100 registrations, with
the resulting state. -/
def insertSeq : Nat → ExecState → List Int × ExecState
  | 0, s => ([], s)
  | n + 1, s =>
    match callbackEveryByMillis 100 1 s with
    | (h, s', _) =>
      match insertSeq n s' with
      | (hs, s'') => (h :: hs, s'')

/-- The post-setup state with every callback reference occupied: the
state after `MAX_NUMBER_OF_CALLBACKS` insertions. -/
def fullExec : ExecState := (insertSeq MAX_NUMBER_OF_CALLBACKS initExec).2

/-- An executing state holding three registered periodic callbacks:
one press, then three period registrations. -/
def execWith3 : ExecState :=
  applyOps [Op.tick 1, Op.insertMillis 100 1, Op.insertMillis 200 2,
    Op.insertMillis 300 3] initExec

/-- An executing state holding one registered periodic callback. -/
def oneCb : ExecState := applyOps [Op.tick 1, Op.insertMillis 100 1] initExec

theorem clearRefs_spec : ∀ (rs : List Int) (t : Timer),
    (clearRefs t rs).2.1 = List.replicate rs.length TIMER_NOT_AN_EVENT ∧
    (clearRefs t rs).2.2 = rs.map Event.cancel := by
  intro rs
  induction rs with
  | nil => intro t; exact ⟨rfl, rfl⟩
  | cons r rs ih =>
    intro t
    have h := ih (Timer.stop t r)
    simp [clearRefs, List.replicate, h.1, h.2]

theorem insertRef_none : ∀ (rs : List Int) (t : Timer) (p cb : Nat),
    firstEmpty rs = none → insertRef t p cb rs = none := by
  intro rs
  induction rs with
  | nil => intro t p cb _; rfl
  | cons r rs ih =>
    intro t p cb h
    by_cases hr : r = TIMER_NOT_AN_EVENT
    · simp [firstEmpty, hr] at h
    · have hrec : firstEmpty rs = none := by
        simp [firstEmpty, hr] at h
        exact h
      simp [insertRef, hr, ih t p cb hrec]

theorem insertRef_some : ∀ (rs : List Int) (i : Nat) (t : Timer) (p cb : Nat),
    firstEmpty rs = some i →
    insertRef t p cb rs =
      some ((Timer.every t p cb).1, rs.set i (Timer.every t p cb).1,
            (Timer.every t p cb).2) := by
  intro rs
  induction rs with
  | nil => intro i t p cb h; simp [firstEmpty] at h
  | cons r rs ih =>
    intro i t p cb h
    by_cases hr : r = TIMER_NOT_AN_EVENT
    · simp [firstEmpty, hr] at h
      subst h
      simp [insertRef, hr, List.set]
    · simp [firstEmpty, hr] at h
      obtain ⟨j, hj, hij⟩ := h
      subst hij
      simp [insertRef, hr, ih j t p cb hj, List.set]

theorem removeRef_none : ∀ (rs : List Int) (t : Timer) (cid : Int),
    firstMatch cid rs = none → removeRef t cid rs = none := by
  intro rs
  induction rs with
  | nil => intro t cid _; rfl
  | cons r rs ih =>
    intro t cid h
    by_cases hr : r = cid
    · simp [firstMatch, hr] at h
    · have hrec : firstMatch cid rs = none := by
        simp [firstMatch, hr] at h
        exact h
      simp [removeRef, hr, ih t cid hrec]

theorem removeRef_some : ∀ (rs : List Int) (i : Nat) (t : Timer) (cid : Int),
    firstMatch cid rs = some i →
    removeRef t cid rs =
      some (rs.set i TIMER_NOT_AN_EVENT, Timer.stop t cid) := by
  intro rs
  induction rs with
  | nil => intro i t cid h; simp [firstMatch] at h
  | cons r rs ih =>
    intro i t cid h
    by_cases hr : r = cid
    · simp [firstMatch, hr] at h
      subst h
      simp [removeRef, hr, List.set]
    · simp [firstMatch, hr] at h
      obtain ⟨j, hj, hij⟩ := h
      subst hij
      simp [removeRef, hr, ih j t cid hj, List.set]

theorem firstMatch_none_iff : ∀ (cid : Int) (rs : List Int),
    firstMatch cid rs = none ↔ cid ∉ rs := by
  intro cid rs
  induction rs with
  | nil => simp [firstMatch]
  | cons r rs ih =>
    by_cases hr : r = cid
    · simp [firstMatch, hr]
    · simp [firstMatch, hr, ih]
      intro h
      exact fun he => hr he.symm

theorem firstEmpty_eq_firstMatch : ∀ rs : List Int,
    firstEmpty rs = firstMatch TIMER_NOT_AN_EVENT rs := by
  intro rs
  induction rs with
  | nil => rfl
  | cons r rs ih => simp [firstEmpty, firstMatch, ih]

theorem allCleared_set (rs : List Int) (i : Nat)
    (h : allCleared rs) : allCleared (rs.set i TIMER_NOT_AN_EVENT) := by
  intro r hr
  rcases List.mem_or_eq_of_mem_set hr with hmem | heq
  · exact h r hmem
  · exact heq

theorem allCleared_replicate (n : Nat) :
    allCleared (List.replicate n TIMER_NOT_AN_EVENT) := by
  intro r hr
  exact List.eq_of_mem_replicate hr

theorem startExecution_idle (s : ExecState) (hex : s.isExecuting = false) :
    startExecution s =
      ({ s with isExecuting := true },
       [Event.print "*** Starting execution", Event.callStart]) := by
  unfold startExecution
  rw [hex]
  rfl

theorem startExecution_exec (s : ExecState) (hex : s.isExecuting = true) :
    startExecution s = (s, []) := by
  unfold startExecution
  rw [hex]
  rfl

theorem stopExecution_idle (s : ExecState) (hex : s.isExecuting = false) :
    stopExecution s = (s, []) := by
  unfold stopExecution
  rw [hex]
  rfl

theorem stopExecution_exec (s : ExecState) (hex : s.isExecuting = true) :
    stopExecution s =
      ({ s with
           timer := (clearRefs s.timer s.callbackReferences).1,
           callbackReferences := (clearRefs s.timer s.callbackReferences).2.1,
           isExecuting := false },
       Event.print "*** Stopping execution" ::
         ((clearRefs s.timer s.callbackReferences).2.2 ++
           [Event.callStop, Event.print "*** Ready to start execution"])) := by
  unfold stopExecution
  rw [hex]
  rfl

theorem abortExecution_eq (s : ExecState) :
    abortExecution s =
      ((stopExecution s).1,
       Event.print "*** Aborting execution by request!" :: (stopExecution s).2) :=
  rfl

theorem checkButton_no_press (level : Int) (s : ExecState)
    (h : ¬ (level = s.expectedButtonPressState ∧ level ≠ s.oldButtonState)) :
    checkButton level s = ({ s with oldButtonState := level }, []) := by
  simp only [checkButton]
  rw [if_neg h]

theorem checkButton_press_idle (level : Int) (s : ExecState)
    (h : level = s.expectedButtonPressState ∧ level ≠ s.oldButtonState)
    (hex : s.isExecuting = false) :
    checkButton level s =
      ({ s with isExecuting := true, oldButtonState := level },
       [Event.print "*** Starting execution", Event.callStart]) := by
  simp only [checkButton]
  rw [if_pos h, hex, startExecution_idle s hex]
  rfl

theorem checkButton_press_exec (level : Int) (s : ExecState)
    (h : level = s.expectedButtonPressState ∧ level ≠ s.oldButtonState)
    (hex : s.isExecuting = true) :
    checkButton level s =
      ({ s with
           timer := (clearRefs s.timer s.callbackReferences).1,
           callbackReferences := (clearRefs s.timer s.callbackReferences).2.1,
           isExecuting := false,
           oldButtonState := level },
       Event.print "*** Stopping execution" ::
         ((clearRefs s.timer s.callbackReferences).2.2 ++
           [Event.callStop, Event.print "*** Ready to start execution"])) := by
  simp only [checkButton]
  rw [if_pos h, hex, stopExecution_exec s hex]
  rfl

theorem callbackEveryByMillis_full (s : ExecState) (p cb : Nat)
    (h : firstEmpty s.callbackReferences = none) :
    callbackEveryByMillis p cb s = (CALLBACK_NOT_INSTALLED, s, []) := by
  unfold callbackEveryByMillis
  rw [insertRef_none s.callbackReferences s.timer p cb h]

theorem callbackEveryByMillis_free (s : ExecState) (p cb i : Nat)
    (h : firstEmpty s.callbackReferences = some i) :
    callbackEveryByMillis p cb s =
      ((Timer.every s.timer p cb).1,
       { s with
           callbackReferences :=
             s.callbackReferences.set i (Timer.every s.timer p cb).1,
           timer := (Timer.every s.timer p cb).2 },
       [Event.regPeriodic p cb (Timer.every s.timer p cb).1]) := by
  unfold callbackEveryByMillis
  rw [insertRef_some s.callbackReferences i s.timer p cb h]

theorem stopCallback_notFound (s : ExecState) (cid : Int)
    (h : firstMatch cid s.callbackReferences = none) :
    stopCallback cid s = (CALLBACK_NOT_INSTALLED, s, []) := by
  unfold stopCallback
  rw [removeRef_none s.callbackReferences s.timer cid h]

theorem stopCallback_found (s : ExecState) (cid : Int) (i : Nat)
    (h : firstMatch cid s.callbackReferences = some i) :
    stopCallback cid s =
      (CALLBACK_STOPPED,
       { s with
           callbackReferences := s.callbackReferences.set i TIMER_NOT_AN_EVENT,
           timer := Timer.stop s.timer cid },
       [Event.cancel cid]) := by
  unfold stopCallback
  rw [removeRef_some s.callbackReferences i s.timer cid h]

theorem callbackEveryByMillis_isExecuting (s : ExecState) (p cb : Nat) :
    (callbackEveryByMillis p cb s).2.1.isExecuting = s.isExecuting := by
  rcases h : firstEmpty s.callbackReferences with _ | i
  · rw [callbackEveryByMillis_full s p cb h]
  · rw [callbackEveryByMillis_free s p cb i h]

/-- The invariant of the spec's data model: while `isExecuting` is false
the callback slot registry holds only the empty marker. -/
def execInv (s : ExecState) : Prop :=
  s.isExecuting = false → allCleared s.callbackReferences

theorem applyOp_inv (op : Op) (s : ExecState) (hInv : execInv s)
    (hok : opGuard op s = true) : execInv (applyOp op s) := by
  cases op with
  | tick level =>
    show execInv (checkButton level s).1
    by_cases hp : level = s.expectedButtonPressState ∧ level ≠ s.oldButtonState
    · cases hex : s.isExecuting with
      | false =>
        rw [checkButton_press_idle level s hp hex]
        intro habs
        simp at habs
      | true =>
        rw [checkButton_press_exec level s hp hex]
        intro _
        show allCleared (clearRefs s.timer s.callbackReferences).2.1
        rw [(clearRefs_spec s.callbackReferences s.timer).1]
        exact allCleared_replicate _
    · rw [checkButton_no_press level s hp]
      intro hidle
      exact hInv hidle
  | insertMillis p cb =>
    show execInv (callbackEveryByMillis p cb s).2.1
    intro habs
    rw [callbackEveryByMillis_isExecuting] at habs
    simp only [opGuard] at hok
    rw [hok] at habs
    cases habs
  | insertHertz f cb =>
    simp only [opGuard] at hok
    by_cases hf : f = 0
    · have hnone : callbackEveryByHertz f cb s = none := by
        simp [callbackEveryByHertz, hf]
      show execInv (match callbackEveryByHertz f cb s with
                    | some (_, s', _) => s'
                    | none => s)
      rw [hnone]
      exact hInv
    · have hsome : callbackEveryByHertz f cb s =
          some (callbackEveryByMillis (1000 / f) cb s) := by
        simp [callbackEveryByHertz, hf]
      show execInv (match callbackEveryByHertz f cb s with
                    | some (_, s', _) => s'
                    | none => s)
      rw [hsome]
      show execInv (callbackEveryByMillis (1000 / f) cb s).2.1
      intro habs
      rw [callbackEveryByMillis_isExecuting] at habs
      rw [hok] at habs
      cases habs
  | removeCb cid =>
    show execInv (stopCallback cid s).2.1
    rcases hfm : firstMatch cid s.callbackReferences with _ | i
    · rw [stopCallback_notFound s cid hfm]
      exact hInv
    · rw [stopCallback_found s cid i hfm]
      intro habs
      exact allCleared_set _ _ (hInv habs)
  | abort =>
    show execInv (stopExecution s).1
    cases hex : s.isExecuting with
    | false =>
      rw [stopExecution_idle s hex]
      exact hInv
    | true =>
      rw [stopExecution_exec s hex]
      intro _
      show allCleared (clearRefs s.timer s.callbackReferences).2.1
      rw [(clearRefs_spec s.callbackReferences s.timer).1]
      exact allCleared_replicate _

theorem applyOps_inv : ∀ (ops : List Op) (s : ExecState),
    execInv s → okSeq s ops = true → execInv (applyOps ops s) := by
  intro ops
  induction ops with
  | nil => intro s h _; exact h
  | cons op rest ih =>
    intro s hInv hok
    rw [show okSeq s (op :: rest) = (opGuard op s && okSeq (applyOp op s) rest)
        from rfl, Bool.and_eq_true] at hok
    exact ih (applyOp op s) (applyOp_inv op s hInv hok.1) hok.2

theorem setup_inv (buttonPin expectedLevel : Int) :
    execInv (setup buttonPin expectedLevel).1 := by
  intro _
  show allCleared (List.replicate MAX_NUMBER_OF_CALLBACKS TIMER_NOT_AN_EVENT)
  exact allCleared_replicate _

/-- C4: for every registry state, `callbackEveryByMillis` scans the
slots in index order for the first empty one; when slot `i` is the first
empty slot it registers the callback with the scheduler at the given
period, stores the returned handle in slot `i`, and returns that handle;
when no empty slot exists it returns `CALLBACK_NOT_INSTALLED`, performs
no scheduler registration (empty trace, scheduler untouched), and leaves
every slot unchanged. -/
theorem C4_insert_first_fit (s : ExecState) (periodInMs callback : Nat) :
    (∀ i, firstEmpty s.callbackReferences = some i →
      callbackEveryByMillis periodInMs callback s =
        ((Timer.every s.timer periodInMs callback).1,
         { s with
             callbackReferences := s.callbackReferences.set i
               (Timer.every s.timer periodInMs callback).1,
             timer := (Timer.every s.timer periodInMs callback).2 },
         [Event.regPeriodic periodInMs callback
            (Timer.every s.timer periodInMs callback).1])) ∧
    (firstEmpty s.callbackReferences = none →
      callbackEveryByMillis periodInMs callback s =
        (CALLBACK_NOT_INSTALLED, s, [])) :=
  ⟨fun i h => callbackEveryByMillis_free s periodInMs callback i h,
   fun h => callbackEveryByMillis_full s periodInMs callback h⟩

/-- Witness for C4: at the empty post-setup registry the insertion uses
slot 0; at the fully occupied registry it fails and changes nothing. -/
theorem C4_witness :
    firstEmpty initExec.callbackReferences = some 0 ∧
    callbackEveryByMillis 100 1 initExec =
      ((Timer.every initExec.timer 100 1).1,
       { initExec with
           callbackReferences := initExec.callbackReferences.set 0
             (Timer.every initExec.timer 100 1).1,
           timer := (Timer.every initExec.timer 100 1).2 },
       [Event.regPeriodic 100 1 (Timer.every initExec.timer 100 1).1]) ∧
    firstEmpty fullExec.callbackReferences = none ∧
    callbackEveryByMillis 100 1 fullExec = (CALLBACK_NOT_INSTALLED, fullExec, []) :=
  ⟨by decide, (C4_insert_first_fit initExec 100 1).1 0 (by decide),
   by decide, (C4_insert_first_fit fullExec 100 1).2 (by decide)⟩

/-- C5: for every registry state and handle, `stopCallback` finds the
first slot storing a handle equal to the argument; when slot `i` matches
it returns `CALLBACK_STOPPED`, delegates cancellation of that handle to
the scheduler, and resets slot `i` to empty; when no slot stores the
argument (exactly when `firstMatch` finds nothing) it returns
`CALLBACK_NOT_INSTALLED` and leaves all state unchanged. -/
theorem C5_remove_semantics (s : ExecState) (callbackId : Int) :
    (∀ i, firstMatch callbackId s.callbackReferences = some i →
      stopCallback callbackId s =
        (CALLBACK_STOPPED,
         { s with
             callbackReferences :=
               s.callbackReferences.set i TIMER_NOT_AN_EVENT,
             timer := Timer.stop s.timer callbackId },
         [Event.cancel callbackId])) ∧
    (callbackId ∉ s.callbackReferences →
      stopCallback callbackId s = (CALLBACK_NOT_INSTALLED, s, [])) ∧
    (firstMatch callbackId s.callbackReferences = none ↔
      callbackId ∉ s.callbackReferences) :=
  ⟨fun i h => stopCallback_found s callbackId i h,
   fun h => stopCallback_notFound s callbackId
     ((firstMatch_none_iff callbackId s.callbackReferences).mpr h),
   firstMatch_none_iff callbackId s.callbackReferences⟩

/-- Witness for C5: with one registered callback of handle 1, removal of
handle 1 cancels and clears slot 0, while removal of the unknown handle
7 is a no-op returning `CALLBACK_NOT_INSTALLED`. -/
theorem C5_witness :
    firstMatch 1 oneCb.callbackReferences = some 0 ∧
    stopCallback 1 oneCb =
      (CALLBACK_STOPPED,
       { oneCb with
           callbackReferences :=
             oneCb.callbackReferences.set 0 TIMER_NOT_AN_EVENT,
           timer := Timer.stop oneCb.timer 1 },
       [Event.cancel 1]) ∧
    (7 : Int) ∉ oneCb.callbackReferences ∧
    stopCallback 7 oneCb = (CALLBACK_NOT_INSTALLED, oneCb, []) :=
  ⟨by decide, (C5_remove_semantics oneCb 1).1 0 (by decide),
   by decide, (C5_remove_semantics oneCb 7).2.1 (by decide)⟩

/-- C7: for every frequency of at least 1 and every state,
`callbackEveryByHertz` has exactly the same result, state effect and
collaborator trace as `callbackEveryByMillis` at the truncated integer
division `1000 / periodInHz`. -/
theorem C7_hertz_eq_millis (periodInHz callback : Nat) (s : ExecState)
    (h : 1 ≤ periodInHz) :
    callbackEveryByHertz periodInHz callback s =
      some (callbackEveryByMillis (1000 / periodInHz) callback s) := by
  have hne : periodInHz ≠ 0 := by omega
  simp [callbackEveryByHertz, hne]

/-- Witness for C7: a frequency of 4 Hz produces exactly the period-250
registration. -/
theorem C7_witness :
    1 ≤ 4 ∧
    callbackEveryByHertz 4 1 initExec =
      some (callbackEveryByMillis 250 1 initExec) :=
  ⟨by decide, C7_hertz_eq_millis 4 1 initExec (by decide)⟩

/-- C8: redundant transitions are guarded no-ops: `startExecution` while
executing returns the state unchanged with an empty trace (no hook, no
print, no error); `stopExecution` while idle likewise; `abortExecution`
while idle changes nothing, invokes no hook and cancels nothing — its
trace is only the informational abort print. -/
theorem C8_redundant_transitions (s : ExecState) :
    (s.isExecuting = true → startExecution s = (s, [])) ∧
    (s.isExecuting = false →
      stopExecution s = (s, []) ∧
      abortExecution s =
        (s, [Event.print "*** Aborting execution by request!"])) := by
  constructor
  · intro h
    exact startExecution_exec s h
  · intro h
    refine ⟨stopExecution_idle s h, ?_⟩
    rw [abortExecution_eq s, stopExecution_idle s h]

/-- Witness for C8: at the state reached by one press, a redundant Start
is a no-op; at the post-setup idle state, Stop and Abort are no-ops. -/
theorem C8_witness :
    (applyOps [Op.tick 1] initExec).isExecuting = true ∧
    startExecution (applyOps [Op.tick 1] initExec) =
      (applyOps [Op.tick 1] initExec, []) ∧
    initExec.isExecuting = false ∧
    stopExecution initExec = (initExec, []) ∧
    abortExecution initExec =
      (initExec, [Event.print "*** Aborting execution by request!"]) :=
  ⟨by decide,
   (C8_redundant_transitions (applyOps [Op.tick 1] initExec)).1 (by decide),
   by decide,
   ((C8_redundant_transitions initExec).2 (by decide)).1,
   ((C8_redundant_transitions initExec).2 (by decide)).2⟩

/-- C10: `callbackEveryByHertz` hits the unguarded division-by-zero
branch exactly at frequency 0, and is defined for every frequency of at
least 1. -/
theorem C10_hertz_total_iff_positive (periodInHz callback : Nat)
    (s : ExecState) :
    callbackEveryByHertz periodInHz callback s = none ↔ periodInHz = 0 := by
  by_cases h : periodInHz = 0 <;> simp [callbackEveryByHertz, h]

/-- C1: from any executing state, the Stop transition (also as invoked
by `abortExecution`, and by a press while executing) cancels every
occupied slot via the scheduler strictly before the stop hook runs: the
trace contains `callStop` exactly once, every slot's scheduler
cancellation precedes it, afterwards the registry is fully empty and
`isExecuting` is false, whatever the number of occupied slots; the abort
path produces the same final state, adding only its print in front; a
press while executing produces the very same Stop trace. -/
theorem C1_stop_quiesces_before_onStop (s : ExecState)
    (hex : s.isExecuting = true) :
    (stopExecution s).1.isExecuting = false ∧
    (stopExecution s).1.callbackReferences =
      List.replicate s.callbackReferences.length TIMER_NOT_AN_EVENT ∧
    (∃ pre post,
      (stopExecution s).2 = pre ++ Event.callStop :: post ∧
      Event.callStop ∉ pre ∧ Event.callStop ∉ post ∧
      ∀ r ∈ s.callbackReferences, Event.cancel r ∈ pre) ∧
    abortExecution s =
      ((stopExecution s).1,
       Event.print "*** Aborting execution by request!" ::
         (stopExecution s).2) ∧
    (∀ level, level = s.expectedButtonPressState →
      level ≠ s.oldButtonState →
      (checkButton level s).2 = (stopExecution s).2) := by
  have hstop := stopExecution_exec s hex
  have hrefs := (clearRefs_spec s.callbackReferences s.timer).1
  have hevs := (clearRefs_spec s.callbackReferences s.timer).2
  refine ⟨?_, ?_, ?_, abortExecution_eq s, ?_⟩
  · rw [hstop]
  · rw [hstop]
    exact hrefs
  · refine ⟨Event.print "*** Stopping execution" ::
        (clearRefs s.timer s.callbackReferences).2.2,
      [Event.print "*** Ready to start execution"], ?_, ?_, ?_, ?_⟩
    · rw [hstop]
      rfl
    · rw [hevs]
      simp
    · simp
    · intro r hr
      rw [hevs]
      exact List.mem_cons_of_mem _ (List.mem_map_of_mem Event.cancel hr)
  · intro level h1 h2
    rw [checkButton_press_exec level s ⟨h1, h2⟩ hex, hstop]

/-- Witness for C1: in the executing state holding three registered
callbacks, Stop and Abort fully quiesce the registry before the single
stop hook invocation. -/
theorem C1_witness :
    execWith3.isExecuting = true ∧
    ((stopExecution execWith3).1.isExecuting = false ∧
     (stopExecution execWith3).1.callbackReferences =
       List.replicate execWith3.callbackReferences.length TIMER_NOT_AN_EVENT ∧
     (∃ pre post,
       (stopExecution execWith3).2 = pre ++ Event.callStop :: post ∧
       Event.callStop ∉ pre ∧ Event.callStop ∉ post ∧
       ∀ r ∈ execWith3.callbackReferences, Event.cancel r ∈ pre) ∧
     abortExecution execWith3 =
       ((stopExecution execWith3).1,
        Event.print "*** Aborting execution by request!" ::
          (stopExecution execWith3).2) ∧
     (∀ level, level = execWith3.expectedButtonPressState →
       level ≠ execWith3.oldButtonState →
       (checkButton level execWith3).2 = (stopExecution execWith3).2)) :=
  ⟨by decide, C1_stop_quiesces_before_onStop execWith3 (by decide)⟩

/-- C2, counterexample: the claim as stated is false — registering a
callback while idle is permitted by the public interface and leaves
`isExecuting` false with an occupied slot. The violating state is
reached from the post-setup state by the single public operation
`insertMillis 100 1`. -/
theorem C2_counterexample :
    (applyOps [Op.insertMillis 100 1] initExec).isExecuting = false ∧
    ¬ allCleared
      (applyOps [Op.insertMillis 100 1] initExec).callbackReferences := by
  decide

/-- C2, amended: in every state reachable after setup by a sequence of
public operations in which `callbackEveryByMillis` and
`callbackEveryByHertz` are only invoked while `isExecuting` is true,
whenever `isExecuting` is false the registry is fully empty. -/
theorem C2_idle_registry_empty (buttonPin expectedLevel : Int)
    (ops : List Op)
    (hseq : okSeq (setup buttonPin expectedLevel).1 ops = true)
    (hidle :
      (applyOps ops (setup buttonPin expectedLevel).1).isExecuting = false) :
    allCleared
      (applyOps ops (setup buttonPin expectedLevel).1).callbackReferences :=
  applyOps_inv ops (setup buttonPin expectedLevel).1
    (setup_inv buttonPin expectedLevel) hseq hidle

/-- Witness for C2: a run that starts by press, registers while
executing, then aborts, ends idle with a fully empty registry. -/
theorem C2_witness :
    okSeq (setup 2 1).1 [Op.tick 1, Op.insertMillis 100 1, Op.abort] = true ∧
    (applyOps [Op.tick 1, Op.insertMillis 100 1, Op.abort]
      (setup 2 1).1).isExecuting = false ∧
    allCleared (applyOps [Op.tick 1, Op.insertMillis 100 1, Op.abort]
      (setup 2 1).1).callbackReferences :=
  ⟨by decide, by decide,
   C2_idle_registry_empty 2 1 [Op.tick 1, Op.insertMillis 100 1, Op.abort]
     (by decide) (by decide)⟩

/-- C3: on every tick a press event fires (the tick's trace is
non-empty, i.e. a Start or Stop transition runs) exactly when the read
level equals the expected press level and differs from the last observed
level, and the last observed level is unconditionally updated to the
read level; on the scenario levels LOW, LOW, HIGH, HIGH, LOW, HIGH after
setup with expected level HIGH, events fire on ticks 3 and 6 only, with
Start on tick 3 and Stop on tick 6. -/
theorem C3_press_edge_detection :
    (∀ (s : ExecState) (level : Int),
      (checkButton level s).1.oldButtonState = level ∧
      ((checkButton level s).2 ≠ [] ↔
        level = s.expectedButtonPressState ∧ level ≠ s.oldButtonState)) ∧
    (tickTraces [0, 0, 1, 1, 0, 1] initExec).map List.isEmpty =
      [true, true, false, true, true, false] ∧
    Event.callStart ∈ (tickTraces [0, 0, 1, 1, 0, 1] initExec).getD 2 [] ∧
    Event.callStop ∉ (tickTraces [0, 0, 1, 1, 0, 1] initExec).getD 2 [] ∧
    Event.callStop ∈ (tickTraces [0, 0, 1, 1, 0, 1] initExec).getD 5 [] ∧
    Event.callStart ∉ (tickTraces [0, 0, 1, 1, 0, 1] initExec).getD 5 [] := by
  refine ⟨?_, by decide, by decide, by decide, by decide, by decide⟩
  intro s level
  refine ⟨rfl, ?_⟩
  by_cases hp : level = s.expectedButtonPressState ∧ level ≠ s.oldButtonState
  · cases hex : s.isExecuting with
    | false =>
      rw [checkButton_press_idle level s hp hex]
      exact iff_of_true (List.cons_ne_nil _ _) hp
    | true =>
      rw [checkButton_press_exec level s hp hex]
      exact iff_of_true (List.cons_ne_nil _ _) hp
  · rw [checkButton_no_press level s hp]
    exact iff_of_false (fun hne => hne rfl) hp

/-- C6: from the empty post-setup registry, `MAX_NUMBER_OF_CALLBACKS`
consecutive insertions all succeed with pairwise distinct handles, the
next insertion returns `CALLBACK_NOT_INSTALLED`, and after removing the
handle stored in slot 4 a subsequent insertion succeeds and reuses the
vacated slot 4. -/
theorem C6_capacity_and_reuse :
    (insertSeq MAX_NUMBER_OF_CALLBACKS initExec).1.length =
      MAX_NUMBER_OF_CALLBACKS ∧
    (insertSeq MAX_NUMBER_OF_CALLBACKS initExec).1.Nodup ∧
    (∀ h ∈ (insertSeq MAX_NUMBER_OF_CALLBACKS initExec).1,
      h ≠ CALLBACK_NOT_INSTALLED) ∧
    (callbackEveryByMillis 100 1
      (insertSeq MAX_NUMBER_OF_CALLBACKS initExec).2).1 =
      CALLBACK_NOT_INSTALLED ∧
    (insertSeq MAX_NUMBER_OF_CALLBACKS initExec).2.callbackReferences.getD 4 0
      = 5 ∧
    (stopCallback 5 (insertSeq MAX_NUMBER_OF_CALLBACKS initExec).2).1 =
      CALLBACK_STOPPED ∧
    (stopCallback 5
      (insertSeq MAX_NUMBER_OF_CALLBACKS initExec).2).2.1.callbackReferences.getD 4 0
      = TIMER_NOT_AN_EVENT ∧
    (callbackEveryByMillis 100 1 (stopCallback 5
      (insertSeq MAX_NUMBER_OF_CALLBACKS initExec).2).2.1).1 ≠
      CALLBACK_NOT_INSTALLED ∧
    (callbackEveryByMillis 100 1 (stopCallback 5
      (insertSeq MAX_NUMBER_OF_CALLBACKS initExec).2).2.1).2.1.callbackReferences.getD 4 0
      = (callbackEveryByMillis 100 1 (stopCallback 5
        (insertSeq MAX_NUMBER_OF_CALLBACKS initExec).2).2.1).1 := by
  decide

/-- C9: when the registry has an empty slot (the first one at index
`i`), `stopCallback` applied to `CALLBACK_NOT_INSTALLED` — a value equal
to the empty-slot marker `TIMER_NOT_AN_EVENT` and distinct from
`CALLBACK_STOPPED` — matches that empty slot, invokes a scheduler
cancellation with the sentinel value, and returns `CALLBACK_STOPPED`
rather than `CALLBACK_NOT_INSTALLED`. -/
theorem C9_sentinel_matches_empty_slot (s : ExecState) (i : Nat)
    (h : firstEmpty s.callbackReferences = some i) :
    CALLBACK_NOT_INSTALLED = TIMER_NOT_AN_EVENT ∧
    CALLBACK_STOPPED ≠ CALLBACK_NOT_INSTALLED ∧
    stopCallback CALLBACK_NOT_INSTALLED s =
      (CALLBACK_STOPPED,
       { s with
           callbackReferences :=
             s.callbackReferences.set i TIMER_NOT_AN_EVENT,
           timer := Timer.stop s.timer TIMER_NOT_AN_EVENT },
       [Event.cancel TIMER_NOT_AN_EVENT]) := by
  refine ⟨rfl, by decide, ?_⟩
  have hm : firstMatch CALLBACK_NOT_INSTALLED s.callbackReferences = some i := by
    rw [show CALLBACK_NOT_INSTALLED = TIMER_NOT_AN_EVENT from rfl,
      ← firstEmpty_eq_firstMatch]
    exact h
  rw [stopCallback_found s CALLBACK_NOT_INSTALLED i hm]
  rfl

/-- Witness for C9: at the empty post-setup registry, removing the
sentinel handle matches slot 0 and reports `CALLBACK_STOPPED`. -/
theorem C9_witness :
    firstEmpty initExec.callbackReferences = some 0 ∧
    (CALLBACK_NOT_INSTALLED = TIMER_NOT_AN_EVENT ∧
     CALLBACK_STOPPED ≠ CALLBACK_NOT_INSTALLED ∧
     stopCallback CALLBACK_NOT_INSTALLED initExec =
       (CALLBACK_STOPPED,
        { initExec with
            callbackReferences :=
              initExec.callbackReferences.set 0 TIMER_NOT_AN_EVENT,
            timer := Timer.stop initExec.timer TIMER_NOT_AN_EVENT },
        [Event.cancel TIMER_NOT_AN_EVENT])) :=
  ⟨by decide, C9_sentinel_matches_empty_slot initExec 0 (by decide)⟩
